import Mathlib

/-!
# gateway-connector-bridge: the TTN router adapter and the Exchange

A shallow embedding of `backend/ttn/router.go` (the per-gateway client cache
of `Router` and the reconnect loop of `SubscribeDownlink`) and of the
connect/disconnect handling of the Exchange exercised by
`exchange/exchange_test.go`.

The Go code is stateful; every method is embedded as a function from the state
before the call to the result and the state after it.  What the Go code gets from
outside is made explicit:

* `time.Now()` is an argument `now`;
* the methods of the upstream library's `router.GatewayClient` are the fields of
  a `GatewayAPI`, each a function of the client and of the outside world `σ`;
* every call that leaves the router (constructing or closing a client, sleeping,
  sending on the downlink channel, ...) is appended to a `trace` of `Event`s.
-/

namespace ttn

/-- An instant, as returned by `time.Now()`. -/
abbrev Time := Nat

/-- A non-nil Go `error`; a Go value of type `error` is an `Option Error`. -/
abbrev Error := String

/-- The protobuf message carried by an uplink, status or downlink message. -/
abbrev Payload := Nat

/-- One second as a `time.Duration` (nanoseconds). -/
def Second : Nat := 1000000000

/-- Go struct `RouterConfig`. -/
structure RouterConfig where
  DiscoveryServer : String
  RouterID : String

/-- The object returned by `(*router.Client).ForGateway(gatewayID, tokenFunc)`:
`handle` is the identity of the allocated object, `gatewayID` and `tokenFunc`
are the two arguments it was built from.  The token callback `func() string` is a
function of the outside world `σ` it reads (and may change). -/
structure GatewayClient (σ : Type) where
  handle : Nat
  gatewayID : String
  tokenFunc : σ → String × σ

/-- Go struct `gatewayConn`. -/
structure gatewayConn (σ : Type) where
  client : GatewayClient σ
  lastActive : Time

/-- The calls that leave the router, in the order they are made. -/
inductive Event where
  /-- Call `r.client.ForGateway(gatewayID, ...)` returned the client `handle`. -/
  | forGateway (handle : Nat) (gatewayID : String)
  /-- Call `client.Close()` on the gateway client `handle`. -/
  | close (handle : Nat)
  /-- Call `client.SendUplink(m)`. -/
  | sendUplink (handle : Nat) (m : Payload)
  /-- Call `client.SendGatewayStatus(m)`. -/
  | sendGatewayStatus (handle : Nat) (m : Payload)
  /-- Call `client.Subscribe()`. -/
  | subscribe (handle : Nat)
  /-- Call `client.Unsubscribe()`. -/
  | unsubscribe (handle : Nat)
  /-- Call `time.Sleep(d)`. -/
  | sleep (d : Nat)
  /-- Call `r.Ctx.WithError(err).Error(...)`. -/
  | logError (err : Error)
  /-- Send `downlink <- &types.DownlinkMessage{GatewayID: gatewayID, Message: m}`. -/
  | send (gatewayID : String) (m : Payload)
  /-- Call `close(downlink)`. -/
  | closeDownlink
  /-- Call `discovery.Close()` (deferred in `Connect`). -/
  | closeDiscovery
  /-- Call `r.client.Close()` in `Disconnect`. -/
  | closeRouterClient
  deriving DecidableEq, Repr

/-- Go struct `Router` (fields `config`, `client`, `tokenFunc`, `gateways`; the
logger `Ctx` only receives `Event.logError`, and the mutex `mu` makes every method
body below one atomic step), together with the part of the world its methods
act on: `nextHandle` is the number of gateway clients allocated so far, `env` is
the state the token function and the upstream library read and write, `trace` is
the list of calls made so far.  The Go map `gateways` is a finite map with unique
keys; what a Go program can observe of it are its lookups and its set of keys, not
the order of the entries of the `AList`. -/
structure Router (σ : Type) where
  config : RouterConfig
  client : Option Nat
  tokenFunc : String → σ → String × σ
  gateways : AList (fun _ : String => gatewayConn σ)
  nextHandle : Nat
  env : σ
  trace : List Event

variable {σ : Type}

/-- Go `New`: a router with an empty `gateways` map and no RPC client yet. -/
def New (config : RouterConfig) (tokenFunc : String → σ → String × σ) (env : σ) : Router σ :=
  { config := config
    client := none
    tokenFunc := tokenFunc
    gateways := ∅
    nextHandle := 0
    env := env
    trace := [] }

/-- Library call `r.client.ForGateway(gatewayID, tokenFunc)`: allocates a new
gateway client that stores the gateway ID and the token callback, without calling
the callback. -/
def ForGateway (r : Router σ) (gatewayID : String) (tokenFunc : σ → String × σ) :
    GatewayClient σ × Router σ :=
  ({ handle := r.nextHandle, gatewayID := gatewayID, tokenFunc := tokenFunc },
   { r with nextHandle := r.nextHandle + 1
            trace := r.trace ++ [Event.forGateway r.nextHandle gatewayID] })

/-- Go `(*Router).getGateway`.  The hit branch writes `lastActive` through the
stored pointer; the miss branch stores a new `gatewayConn` and returns the client
read back from the map (`r.gateways[gatewayID].client`). -/
def getGateway (r : Router σ) (now : Time) (gatewayID : String) :
    GatewayClient σ × Router σ :=
  match r.gateways.lookup gatewayID with
  | some gtw =>
    (gtw.client,
     { r with gateways := r.gateways.insert gatewayID { gtw with lastActive := now } })
  | none =>
    let (c, r1) := ForGateway r gatewayID (fun e => r.tokenFunc gatewayID e)
    let r2 : Router σ :=
      { r1 with gateways := r1.gateways.insert gatewayID { client := c, lastActive := now } }
    match r2.gateways.lookup gatewayID with
    | some gtw => (gtw.client, r2)
    | none => (c, r2)

/-- Go `(*Router).CleanupGateway`. -/
def CleanupGateway (r : Router σ) (gatewayID : String) : Router σ :=
  match r.gateways.lookup gatewayID with
  | some gtw =>
    { r with trace := r.trace ++ [Event.close gtw.client.handle]
             gateways := r.gateways.erase gatewayID }
  | none => r

/-- The gateway clients closed so far, in the order of the `Close()` calls. -/
def closedClients (r : Router σ) : List Nat :=
  r.trace.filterMap fun e =>
    match e with
    | Event.close h => some h
    | _ => none

/-- The number of gateway clients constructed so far by `ForGateway`. -/
def constructedCount (r : Router σ) : Nat :=
  (r.trace.filter fun e =>
    match e with
    | Event.forGateway _ _ => true
    | _ => false).length

/-- The invariant of the router states reached from `New` by the methods of the
router: the client stored under a gateway ID was built by `ForGateway` for that ID
with the callback `func() string { return r.tokenFunc(gatewayID) }`; the stored
clients are allocated, pairwise distinct objects, none of them closed; and every
closed client was allocated before. -/
structure Inv (r : Router σ) : Prop where
  bound : ∀ k gtw, r.gateways.lookup k = some gtw →
    gtw.client.gatewayID = k ∧ gtw.client.tokenFunc = fun e => r.tokenFunc k e
  allocated : ∀ k gtw, r.gateways.lookup k = some gtw → gtw.client.handle < r.nextHandle
  distinct : ∀ k1 k2 g1 g2, r.gateways.lookup k1 = some g1 → r.gateways.lookup k2 = some g2 →
    g1.client.handle = g2.client.handle → k1 = k2
  live : ∀ k gtw, r.gateways.lookup k = some gtw → gtw.client.handle ∉ closedClients r
  closedAllocated : ∀ h, h ∈ closedClients r → h < r.nextHandle

/-- The outside world of the examples: the number of key rotations so far and the
gateway IDs the token function was called with. -/
structure KeyWorld where
  rotation : Nat
  calls : List String
  deriving DecidableEq, Repr

/-- A token function for the examples: the token of a gateway names the current
key rotation, and every call is recorded. -/
def rotatingToken (gatewayID : String) (w : KeyWorld) : String × KeyWorld :=
  (if w.rotation = 0 then "first-" ++ gatewayID else "rotated-" ++ gatewayID,
   { w with calls := w.calls ++ [gatewayID] })

/-- The router of the examples: `New` with the rotating token function, before any
key rotation and any call of the token function. -/
def freshRouter : Router KeyWorld :=
  New { DiscoveryServer := "discovery:1900", RouterID := "dev-router" } rotatingToken
    { rotation := 0, calls := [] }

/-! ## The methods that forward to the gateway client -/

/-- Go struct `types.UplinkMessage`. -/
structure UplinkMessage where
  GatewayID : String
  Message : Payload

/-- Go struct `types.StatusMessage`. -/
structure StatusMessage where
  GatewayID : String
  Message : Payload

/-- Go struct `types.DownlinkMessage`. -/
structure DownlinkMessage where
  GatewayID : String
  Message : Payload
  deriving DecidableEq, Repr

/-- What `client.Subscribe()` returns: the downlink channel, the error channel
(each `nil` or a channel) and an error. -/
structure SubscribeResult where
  downChan : Option Nat
  errChan : Option Nat
  err : Option Error
  deriving DecidableEq, Repr

/-- The behaviour of the methods of the upstream library's `router.GatewayClient`
that the router calls: what each returns for a client in a state of the outside
world, and the state it leaves. -/
structure GatewayAPI (σ : Type) where
  SendUplink : GatewayClient σ → Payload → σ → Option Error × σ
  SendGatewayStatus : GatewayClient σ → Payload → σ → Option Error × σ
  Subscribe : GatewayClient σ → σ → SubscribeResult × σ
  Unsubscribe : GatewayClient σ → σ → Option Error × σ

/-- Go `(*Router).PublishUplink`. -/
def PublishUplink (api : GatewayAPI σ) (r : Router σ) (now : Time) (message : UplinkMessage) :
    Option Error × Router σ :=
  let (c, r1) := getGateway r now message.GatewayID
  let (err, env1) := api.SendUplink c message.Message r1.env
  (err, { r1 with env := env1, trace := r1.trace ++ [Event.sendUplink c.handle message.Message] })

/-- Go `(*Router).PublishStatus`. -/
def PublishStatus (api : GatewayAPI σ) (r : Router σ) (now : Time) (message : StatusMessage) :
    Option Error × Router σ :=
  let (c, r1) := getGateway r now message.GatewayID
  let (err, env1) := api.SendGatewayStatus c message.Message r1.env
  (err,
   { r1 with env := env1
             trace := r1.trace ++ [Event.sendGatewayStatus c.handle message.Message] })

/-- Go `(*Router).UnsubscribeDownlink`. -/
def UnsubscribeDownlink (api : GatewayAPI σ) (r : Router σ) (now : Time) (gatewayID : String) :
    Option Error × Router σ :=
  let (c, r1) := getGateway r now gatewayID
  let (err, env1) := api.Unsubscribe c r1.env
  (err, { r1 with env := env1, trace := r1.trace ++ [Event.unsubscribe c.handle] })

/-- The behaviour of the discovery service and of `router.NewClient`, which
`Connect` calls: `NewClient server` is `discovery.NewClient`, `Get d service id`
is `discovery.Get`, `NewRouterClient a` is `router.NewClient`. -/
structure DiscoveryAPI where
  NewClient : String → Except Error Nat
  Get : Nat → String → String → Except Error Nat
  NewRouterClient : Nat → Except Error Nat

/-- Go `(*Router).Connect`. -/
def Connect (d : DiscoveryAPI) (r : Router σ) : Option Error × Router σ :=
  match d.NewClient r.config.DiscoveryServer with
  | .error err => (some err, r)
  | .ok discovery =>
    let r1 : Router σ := { r with trace := r.trace ++ [Event.closeDiscovery] }
    match d.Get discovery "router" r.config.RouterID with
    | .error err => (some err, r1)
    | .ok announcement =>
      match d.NewRouterClient announcement with
      | .error err => (some err, r1)
      | .ok client => (none, { r1 with client := some client })

/-- Go `(*Router).Disconnect`. -/
def Disconnect (r : Router σ) : Option Error × Router σ :=
  (none, { r with trace := r.trace ++ [Event.closeRouterClient] })

/-! ## The reconnect loop of `SubscribeDownlink` -/

/-- Where the goroutine started by `SubscribeDownlink` stands. -/
inductive Loc where
  /-- At the top of the `newConnection:` loop, about to call
  `r.getGateway(gatewayID).Subscribe()`. -/
  | newConnection
  /-- In the `select` of the inner `loop:`, receiving from `downChan` and
  `errChan`. -/
  | loop (downChan errChan : Option Nat)
  /-- After `close(downlink)`: the goroutine has returned. -/
  | returned
  deriving DecidableEq, Repr

/-- The state of the goroutine started by `SubscribeDownlink(gatewayID)`. -/
structure Downlink (σ : Type) where
  loc : Loc
  router : Router σ

/-- What the goroutine observes when it is scheduled. -/
inductive Obs where
  /-- The goroutine runs the head of the outer loop; `time.Now()` reads `now`. -/
  | subscribeAt (now : Time)
  /-- The `select` takes `case down, ok := <-downChan` with `ok = true`. -/
  | recvDown (down : Payload)
  /-- The `select` takes `case down, ok := <-downChan` with `ok = false`: the
  channel is closed. -/
  | downClosed
  /-- The `select` takes `case err := <-errChan`. -/
  | recvErr (err : Option Error)
  deriving DecidableEq, Repr

/-- Go `(*Router).SubscribeDownlink`, the part that runs before it returns: the
channel `downlink` is made and the goroutine is started at `newConnection`. -/
def SubscribeDownlink (r : Router σ) : Downlink σ :=
  { loc := Loc.newConnection, router := r }

/-- Append one call to the trace of the router of the goroutine. -/
def Downlink.emit (s : Downlink σ) (loc : Loc) (e : Event) : Downlink σ :=
  { loc := loc, router := { s.router with trace := s.router.trace ++ [e] } }

/-- One step of the goroutine of `SubscribeDownlink(gatewayID)`.  `none` means that
the goroutine cannot make this observation where it stands: a receive from a `nil`
channel never completes, and a goroutine that has returned observes nothing.  The
send on the unbuffered channel `downlink` is taken to complete: the consumer of the
returned channel reads it. -/
def step (api : GatewayAPI σ) (gatewayID : String) (s : Downlink σ) : Obs → Option (Downlink σ)
  | Obs.subscribeAt now =>
    match s.loc with
    | Loc.newConnection =>
      let (c, r1) := getGateway s.router now gatewayID
      let (res, env1) := api.Subscribe c r1.env
      let r2 : Router σ := { r1 with env := env1, trace := r1.trace ++ [Event.subscribe c.handle] }
      let r3 : Router σ :=
        if res.err.isSome then { r2 with trace := r2.trace ++ [Event.sleep Second] } else r2
      some { loc := Loc.loop res.downChan res.errChan, router := r3 }
    | _ => none
  | Obs.recvDown down =>
    match s.loc with
    | Loc.loop (some downChan) errChan =>
      some (s.emit (Loc.loop (some downChan) errChan) (Event.send gatewayID down))
    | _ => none
  | Obs.downClosed =>
    match s.loc with
    | Loc.loop (some _) _ => some (s.emit Loc.returned Event.closeDownlink)
    | _ => none
  | Obs.recvErr err =>
    match s.loc with
    | Loc.loop _ (some _) =>
      match err with
      | some e => some (s.emit Loc.newConnection (Event.logError e))
      | none => some { s with loc := Loc.newConnection }
    | _ => none

/-- A run of the goroutine over a sequence of observations; `none` when some
observation of the sequence cannot be made. -/
def run (api : GatewayAPI σ) (gatewayID : String) (s : Downlink σ) : List Obs → Option (Downlink σ)
  | [] => some s
  | o :: os =>
    match step api gatewayID s o with
    | some s1 => run api gatewayID s1 os
    | none => none

/-- The messages sent on the channel returned by `SubscribeDownlink`. -/
def sent (t : List Event) : List DownlinkMessage :=
  t.filterMap fun e =>
    match e with
    | Event.send g m => some { GatewayID := g, Message := m }
    | _ => none

/-- The messages received from the stream in a sequence of observations. -/
def received (os : List Obs) : List Payload :=
  os.filterMap fun o =>
    match o with
    | Obs.recvDown m => some m
    | _ => none

/-- The gateway clients on which `Subscribe()` was called in a trace, in order. -/
def subscribes (t : List Event) : List Nat :=
  t.filterMap fun e =>
    match e with
    | Event.subscribe h => some h
    | _ => none

/-- The router states reached from `New` by calls of the methods of the router, by
steps of a goroutine started by `SubscribeDownlink`, and by changes of the outside
world. -/
inductive Reachable (api : GatewayAPI σ) : Router σ → Prop where
  | new (config : RouterConfig) (tokenFunc : String → σ → String × σ) (env : σ) :
    Reachable api (New config tokenFunc env)
  | getGateway (r : Router σ) (now : Time) (id : String) :
    Reachable api r → Reachable api (getGateway r now id).2
  | cleanupGateway (r : Router σ) (id : String) :
    Reachable api r → Reachable api (CleanupGateway r id)
  | connect (r : Router σ) (d : DiscoveryAPI) :
    Reachable api r → Reachable api (Connect d r).2
  | disconnect (r : Router σ) :
    Reachable api r → Reachable api (Disconnect r).2
  | publishUplink (r : Router σ) (now : Time) (m : UplinkMessage) :
    Reachable api r → Reachable api (PublishUplink api r now m).2
  | publishStatus (r : Router σ) (now : Time) (m : StatusMessage) :
    Reachable api r → Reachable api (PublishStatus api r now m).2
  | unsubscribeDownlink (r : Router σ) (now : Time) (id : String) :
    Reachable api r → Reachable api (UnsubscribeDownlink api r now id).2
  | step (r : Router σ) (id : String) (loc : Loc) (o : Obs) (s1 : Downlink σ) :
    Reachable api r → step api id { loc := loc, router := r } o = some s1 →
    Reachable api s1.router
  | world (r : Router σ) (env : σ) :
    Reachable api r → Reachable api { r with env := env }

/-! ## Two upstream behaviours for the examples -/

/-- An upstream whose `Subscribe` succeeds and returns the channels 0 and 1, and
whose other calls succeed. -/
def steadyAPI : GatewayAPI KeyWorld :=
  { SendUplink := fun _ _ e => (none, e)
    SendGatewayStatus := fun _ _ e => (none, e)
    Subscribe := fun _ e => ({ downChan := some 0, errChan := some 1, err := none }, e)
    Unsubscribe := fun _ e => (none, e) }

/-- An upstream whose `Subscribe` fails and returns `nil` channels with the
error. -/
def failingAPI : GatewayAPI KeyWorld :=
  { SendUplink := fun _ _ e => (none, e)
    SendGatewayStatus := fun _ _ e => (none, e)
    Subscribe := fun _ e => ({ downChan := none, errChan := none, err := some "unavailable" }, e)
    Unsubscribe := fun _ e => (none, e) }

/-- The sleeps of a trace, in order. -/
def sleeps (t : List Event) : List Nat :=
  t.filterMap fun e =>
    match e with
    | Event.sleep d => some d
    | _ => none

end ttn

/-! ## The Exchange

`exchange/exchange_test.go` drives an Exchange whose code, like that of the
packages `auth` and `types`, is not among the sources; the definitions of this
section follow the specification (§3, §4.1, §4.3, §4.5). -/

namespace exchange

/-- Go struct `types.ConnectMessage`, as the test builds it. -/
structure ConnectMessage where
  GatewayID : String
  Key : String

/-- Go struct `types.DisconnectMessage`, as the test builds it. -/
structure DisconnectMessage where
  GatewayID : String
  Key : String

/-- Modelled from the spec: the AuthStore of §4.1 (package `auth`, created by
`auth.NewMemory()` in the test, is missing), a map from gateway ID to the current
access key. -/
structure AuthStore where
  keys : AList (fun _ : String => String)

/-- Modelled from the spec: `SetKey(id, key)` of the missing AuthStore, "records
the key; overwrites any prior value". -/
def AuthStore.SetKey (a : AuthStore) (id key : String) : AuthStore :=
  { keys := a.keys.insert id key }

/-- Modelled from the spec: `ValidateKey(id, key)` of the missing AuthStore, "true
when stored key is empty (no key set) OR equals the presented key"; with no entry
(after `Delete`) it "returns true only if `key` is empty". -/
def AuthStore.ValidateKey (a : AuthStore) (id key : String) : Bool :=
  match a.keys.lookup id with
  | some stored => stored == "" || stored == key
  | none => key == ""

/-- Modelled from the spec: `Delete(id)` of the missing AuthStore, "removes the
entry". -/
def AuthStore.Delete (a : AuthStore) (id : String) : AuthStore :=
  { keys := a.keys.erase id }

/-- Modelled from the spec: the GatewayRegistry of §4.3 (the type of the field
`b.gateways` read by the test is missing), the set of the connected gateway IDs. -/
structure Registry where
  ids : List String

/-- Modelled from the spec: `Contains` of the missing GatewayRegistry. -/
def Registry.Contains (g : Registry) (id : String) : Bool :=
  g.ids.contains id

/-- Modelled from the spec: `Add` of the missing GatewayRegistry. -/
def Registry.Add (g : Registry) (id : String) : Registry :=
  if g.Contains id then g else { ids := id :: g.ids }

/-- Modelled from the spec: `Remove` of the missing GatewayRegistry. -/
def Registry.Remove (g : Registry) (id : String) : Registry :=
  { ids := g.ids.filter fun x => x != id }

/-- Modelled from the spec: the state of the missing Exchange (§4.5): its
AuthStore, its registry `gateways`, the gateway IDs whose StreamPipeline is
running, and the IDs released on the ConnectionCache so far. -/
structure Exchange where
  auth : AuthStore
  gateways : Registry
  pipelines : List String
  released : List String

/-- Modelled from the spec: the missing constructor of the Exchange (`New(ctx)`
followed by `SetAuth(auth.NewMemory())` in the test): nothing is connected. -/
def Exchange.New : Exchange :=
  { auth := { keys := ∅ }, gateways := { ids := [] }, pipelines := [], released := [] }

/-- Modelled from the spec: the missing handler of a Connect event (§4.5): "If the
registry already contains id, this is a no-op (idempotent connect). Otherwise:
SetKey(id, key) on AuthStore, Add(id) to Registry, create a StreamPipeline for id
and start it." -/
def Exchange.handleConnect (x : Exchange) (m : ConnectMessage) : Exchange :=
  if x.gateways.Contains m.GatewayID then x
  else
    { x with auth := x.auth.SetKey m.GatewayID m.Key
             gateways := x.gateways.Add m.GatewayID
             pipelines := m.GatewayID :: x.pipelines }

/-- Modelled from the spec: the missing handler of a Disconnect event (§4.5): "If
the registry does not contain id, no-op. Otherwise ValidateKey(id, key): if false,
no-op (unauthorized). If true: cancel and join the pipeline, Release(id) on the
ConnectionCache, Delete(id) on AuthStore, Remove(id) from Registry."  The handler
has no error result (§7: an unauthorized disconnect is silently ignored). -/
def Exchange.handleDisconnect (x : Exchange) (m : DisconnectMessage) : Exchange :=
  if x.gateways.Contains m.GatewayID then
    if x.auth.ValidateKey m.GatewayID m.Key then
      { auth := x.auth.Delete m.GatewayID
        gateways := x.gateways.Remove m.GatewayID
        pipelines := x.pipelines.filter fun p => p != m.GatewayID
        released := x.released ++ [m.GatewayID] }
    else x
  else x

end exchange

/-! # Theorems -/

namespace ttn

variable {σ : Type}

/-! ## `getGateway` and `CleanupGateway`, branch by branch -/

theorem getGateway_hit (r : Router σ) (now : Time) (id : String) (gtw : gatewayConn σ)
    (h : r.gateways.lookup id = some gtw) :
    getGateway r now id =
      (gtw.client,
       { r with gateways := r.gateways.insert id { gtw with lastActive := now } }) := by
  simp only [getGateway, h]

theorem getGateway_miss (r : Router σ) (now : Time) (id : String)
    (h : r.gateways.lookup id = none) :
    getGateway r now id =
      ({ handle := r.nextHandle, gatewayID := id, tokenFunc := fun e => r.tokenFunc id e },
       { r with nextHandle := r.nextHandle + 1
                trace := r.trace ++ [Event.forGateway r.nextHandle id]
                gateways := r.gateways.insert id
                  { client := { handle := r.nextHandle, gatewayID := id,
                                tokenFunc := fun e => r.tokenFunc id e }
                    lastActive := now } }) := by
  simp only [getGateway, h, ForGateway, AList.lookup_insert]

theorem CleanupGateway_hit (r : Router σ) (id : String) (gtw : gatewayConn σ)
    (h : r.gateways.lookup id = some gtw) :
    CleanupGateway r id =
      { r with trace := r.trace ++ [Event.close gtw.client.handle]
               gateways := r.gateways.erase id } := by
  simp only [CleanupGateway, h]

theorem CleanupGateway_miss (r : Router σ) (id : String)
    (h : r.gateways.lookup id = none) : CleanupGateway r id = r := by
  simp only [CleanupGateway, h]

theorem closedClients_append_close (r : Router σ) (t : List Event) (h : Nat)
    (ht : t = r.trace ++ [Event.close h]) (r1 : Router σ) (h1 : r1.trace = t) :
    closedClients r1 = closedClients r ++ [h] := by
  simp [closedClients, h1, ht, List.filterMap_append]

theorem lookup_insert_cases (s : AList (fun _ : String => gatewayConn σ)) (id k : String)
    (v : gatewayConn σ) :
    (s.insert id v).lookup k = if k = id then some v else s.lookup k := by
  by_cases hk : k = id
  · subst hk; simp only [AList.lookup_insert, if_true]
  · simp only [AList.lookup_insert_ne hk, if_neg hk]

theorem lookup_erase_cases (s : AList (fun _ : String => gatewayConn σ)) (id k : String) :
    (s.erase id).lookup k = if k = id then none else s.lookup k := by
  by_cases hk : k = id
  · subst hk; simp only [AList.lookup_erase, if_true]
  · simp only [AList.lookup_erase_ne hk, if_neg hk]

/-! ## The invariant holds in every state the router reaches -/

theorem Inv_New (config : RouterConfig) (tokenFunc : String → σ → String × σ) (env : σ) :
    Inv (New config tokenFunc env) := by
  constructor <;> simp [New, closedClients]

theorem Inv_getGateway (r : Router σ) (now : Time) (id : String) (hinv : Inv r) :
    Inv (getGateway r now id).2 := by
  cases h : r.gateways.lookup id with
  | some gtw =>
    rw [getGateway_hit r now id gtw h]
    constructor
    · intro k g hg
      simp only [lookup_insert_cases] at hg
      split at hg
      · next hk => cases hg; subst hk; exact hinv.bound k gtw h
      · exact hinv.bound k g hg
    · intro k g hg
      simp only [lookup_insert_cases] at hg
      split at hg
      · cases hg; exact hinv.allocated id gtw h
      · exact hinv.allocated k g hg
    · intro k1 k2 g1 g2 h1 h2 he
      simp only [lookup_insert_cases] at h1 h2
      split at h1 <;> split at h2
      · next a b => rw [a, b]
      · next a b => cases h1; rw [a]; exact hinv.distinct id k2 gtw g2 h h2 he
      · next a b => cases h2; rw [b]; exact hinv.distinct k1 id g1 gtw h1 h he
      · exact hinv.distinct k1 k2 g1 g2 h1 h2 he
    · intro k g hg
      simp only [lookup_insert_cases] at hg
      split at hg
      · cases hg; exact hinv.live id gtw h
      · exact hinv.live k g hg
    · exact hinv.closedAllocated
  | none =>
    rw [getGateway_miss r now id h]
    have hcl : ∀ r1 : Router σ, r1.trace = r.trace ++ [Event.forGateway r.nextHandle id] →
        closedClients r1 = closedClients r := by
      intro r1 h1
      simp [closedClients, h1, List.filterMap_append]
    constructor
    · intro k g hg
      simp only [lookup_insert_cases] at hg
      split at hg
      · next hk => cases hg; subst hk; exact ⟨rfl, rfl⟩
      · exact hinv.bound k g hg
    · intro k g hg
      simp only [lookup_insert_cases] at hg
      split at hg
      · cases hg; exact Nat.lt_succ_self _
      · exact Nat.lt_succ_of_lt (hinv.allocated k g hg)
    · intro k1 k2 g1 g2 h1 h2 he
      simp only [lookup_insert_cases] at h1 h2
      split at h1 <;> split at h2
      · next a b => rw [a, b]
      · next a b =>
        cases h1
        have := hinv.allocated k2 g2 h2
        simp only at he
        omega
      · next a b =>
        cases h2
        have := hinv.allocated k1 g1 h1
        simp only at he
        omega
      · exact hinv.distinct k1 k2 g1 g2 h1 h2 he
    · intro k g hg
      rw [hcl _ rfl]
      simp only [lookup_insert_cases] at hg
      split at hg
      · cases hg
        intro hmem
        have := hinv.closedAllocated _ hmem
        simp only at this
        omega
      · exact hinv.live k g hg
    · intro x hx
      rw [hcl _ rfl] at hx
      exact Nat.lt_succ_of_lt (hinv.closedAllocated x hx)

theorem Inv_CleanupGateway (r : Router σ) (id : String) (hinv : Inv r) :
    Inv (CleanupGateway r id) := by
  cases h : r.gateways.lookup id with
  | none => rw [CleanupGateway_miss r id h]; exact hinv
  | some gtw =>
    rw [CleanupGateway_hit r id gtw h]
    have hcl : ∀ r1 : Router σ, r1.trace = r.trace ++ [Event.close gtw.client.handle] →
        closedClients r1 = closedClients r ++ [gtw.client.handle] :=
      fun r1 h1 => closedClients_append_close r _ _ rfl r1 h1
    constructor
    · intro k g hg
      simp only [lookup_erase_cases] at hg
      split at hg
      · cases hg
      · exact hinv.bound k g hg
    · intro k g hg
      simp only [lookup_erase_cases] at hg
      split at hg
      · cases hg
      · exact hinv.allocated k g hg
    · intro k1 k2 g1 g2 h1 h2 he
      simp only [lookup_erase_cases] at h1 h2
      split at h1
      · cases h1
      · split at h2
        · cases h2
        · exact hinv.distinct k1 k2 g1 g2 h1 h2 he
    · intro k g hg
      rw [hcl _ rfl]
      simp only [lookup_erase_cases] at hg
      split at hg
      · cases hg
      · next hk =>
        intro hmem
        rcases List.mem_append.1 hmem with hm | hm
        · exact hinv.live k g hg hm
        · exact hk (hinv.distinct k id g gtw hg h (List.mem_singleton.1 hm))
    · intro x hx
      rw [hcl _ rfl] at hx
      rcases List.mem_append.1 hx with hm | hm
      · exact hinv.closedAllocated x hm
      · rw [List.mem_singleton.1 hm]; exact hinv.allocated id gtw h

/-- The invariant does not read `client`, `config`, `env`, nor any event of the
trace other than `Event.close`. -/
theorem Inv_of_same_cache (r r1 : Router σ) (hinv : Inv r) (hg : r1.gateways = r.gateways)
    (ht : r1.tokenFunc = r.tokenFunc) (hn : r1.nextHandle = r.nextHandle)
    (hc : closedClients r1 = closedClients r) : Inv r1 := by
  constructor
  · intro k g h; rw [hg] at h; rw [ht]; exact hinv.bound k g h
  · intro k g h; rw [hg] at h; rw [hn]; exact hinv.allocated k g h
  · intro k1 k2 g1 g2 h1 h2; rw [hg] at h1 h2; exact hinv.distinct k1 k2 g1 g2 h1 h2
  · intro k g h; rw [hg] at h; rw [hc]; exact hinv.live k g h
  · intro x hx; rw [hc] at hx; rw [hn]; exact hinv.closedAllocated x hx

theorem PublishUplink_eq (api : GatewayAPI σ) (r : Router σ) (now : Time)
    (message : UplinkMessage) :
    PublishUplink api r now message =
      ((api.SendUplink (getGateway r now message.GatewayID).1 message.Message
          (getGateway r now message.GatewayID).2.env).1,
       { (getGateway r now message.GatewayID).2 with
         env := (api.SendUplink (getGateway r now message.GatewayID).1 message.Message
           (getGateway r now message.GatewayID).2.env).2
         trace := (getGateway r now message.GatewayID).2.trace ++
           [Event.sendUplink (getGateway r now message.GatewayID).1.handle message.Message] }) :=
  rfl

theorem PublishStatus_eq (api : GatewayAPI σ) (r : Router σ) (now : Time)
    (message : StatusMessage) :
    PublishStatus api r now message =
      ((api.SendGatewayStatus (getGateway r now message.GatewayID).1 message.Message
          (getGateway r now message.GatewayID).2.env).1,
       { (getGateway r now message.GatewayID).2 with
         env := (api.SendGatewayStatus (getGateway r now message.GatewayID).1 message.Message
           (getGateway r now message.GatewayID).2.env).2
         trace := (getGateway r now message.GatewayID).2.trace ++
           [Event.sendGatewayStatus (getGateway r now message.GatewayID).1.handle
             message.Message] }) :=
  rfl

theorem UnsubscribeDownlink_eq (api : GatewayAPI σ) (r : Router σ) (now : Time)
    (gatewayID : String) :
    UnsubscribeDownlink api r now gatewayID =
      ((api.Unsubscribe (getGateway r now gatewayID).1 (getGateway r now gatewayID).2.env).1,
       { (getGateway r now gatewayID).2 with
         env := (api.Unsubscribe (getGateway r now gatewayID).1
           (getGateway r now gatewayID).2.env).2
         trace := (getGateway r now gatewayID).2.trace ++
           [Event.unsubscribe (getGateway r now gatewayID).1.handle] }) :=
  rfl

theorem getGateway_mem_self (r : Router σ) (now : Time) (id : String) :
    id ∈ (getGateway r now id).2.gateways := by
  cases h : r.gateways.lookup id with
  | none => rw [getGateway_miss r now id h]; exact (AList.mem_insert _).2 (Or.inl rfl)
  | some gtw => rw [getGateway_hit r now id gtw h]; exact (AList.mem_insert _).2 (Or.inl rfl)

theorem getGateway_mem_mono (r : Router σ) (now : Time) (id k : String)
    (hk : k ∈ r.gateways) : k ∈ (getGateway r now id).2.gateways := by
  cases h : r.gateways.lookup id with
  | none => rw [getGateway_miss r now id h]; exact (AList.mem_insert _).2 (Or.inr hk)
  | some gtw => rw [getGateway_hit r now id gtw h]; exact (AList.mem_insert _).2 (Or.inr hk)

theorem Inv_PublishUplink (api : GatewayAPI σ) (r : Router σ) (now : Time)
    (m : UplinkMessage) (hinv : Inv r) : Inv (PublishUplink api r now m).2 := by
  rw [PublishUplink_eq]
  exact Inv_of_same_cache _ _ (Inv_getGateway r now m.GatewayID hinv) rfl rfl rfl
    (by simp [closedClients, List.filterMap_append])

theorem Inv_PublishStatus (api : GatewayAPI σ) (r : Router σ) (now : Time)
    (m : StatusMessage) (hinv : Inv r) : Inv (PublishStatus api r now m).2 := by
  rw [PublishStatus_eq]
  exact Inv_of_same_cache _ _ (Inv_getGateway r now m.GatewayID hinv) rfl rfl rfl
    (by simp [closedClients, List.filterMap_append])

theorem Inv_UnsubscribeDownlink (api : GatewayAPI σ) (r : Router σ) (now : Time)
    (id : String) (hinv : Inv r) : Inv (UnsubscribeDownlink api r now id).2 := by
  rw [UnsubscribeDownlink_eq]
  exact Inv_of_same_cache _ _ (Inv_getGateway r now id hinv) rfl rfl rfl
    (by simp [closedClients, List.filterMap_append])

theorem Inv_Connect (d : DiscoveryAPI) (r : Router σ) (hinv : Inv r) : Inv (Connect d r).2 := by
  unfold Connect
  split
  · exact hinv
  · split
    · exact Inv_of_same_cache _ _ hinv rfl rfl rfl
        (by simp [closedClients, List.filterMap_append])
    · split
      · exact Inv_of_same_cache _ _ hinv rfl rfl rfl
          (by simp [closedClients, List.filterMap_append])
      · exact Inv_of_same_cache _ _ hinv rfl rfl rfl
          (by simp [closedClients, List.filterMap_append])

theorem Inv_Disconnect (r : Router σ) (hinv : Inv r) : Inv (Disconnect r).2 :=
  Inv_of_same_cache _ _ hinv rfl rfl rfl (by simp [Disconnect, closedClients, List.filterMap_append])

theorem Inv_step (api : GatewayAPI σ) (id : String) (s s1 : Downlink σ) (o : Obs)
    (h : step api id s o = some s1) (hinv : Inv s.router) : Inv s1.router := by
  cases o with
  | subscribeAt now =>
    simp only [step] at h
    split at h
    · simp only [Option.some.injEq] at h
      rw [← h]
      have hg := Inv_getGateway s.router now id hinv
      split
      · exact Inv_of_same_cache _ _ hg rfl rfl rfl
          (by simp [closedClients, List.filterMap_append])
      · exact Inv_of_same_cache _ _ hg rfl rfl rfl
          (by simp [closedClients, List.filterMap_append])
    · cases h
  | recvDown down =>
    simp only [step] at h
    split at h
    · simp only [Option.some.injEq] at h; rw [← h]
      exact Inv_of_same_cache _ _ hinv rfl rfl rfl
        (by simp [Downlink.emit, closedClients, List.filterMap_append])
    · cases h
  | downClosed =>
    simp only [step] at h
    split at h
    · simp only [Option.some.injEq] at h; rw [← h]
      exact Inv_of_same_cache _ _ hinv rfl rfl rfl
        (by simp [Downlink.emit, closedClients, List.filterMap_append])
    · cases h
  | recvErr err =>
    simp only [step] at h
    split at h
    · split at h
      · simp only [Option.some.injEq] at h; rw [← h]
        exact Inv_of_same_cache _ _ hinv rfl rfl rfl
          (by simp [Downlink.emit, closedClients, List.filterMap_append])
      · simp only [Option.some.injEq] at h; rw [← h]; exact hinv
    · cases h

/-- Every state the router reaches satisfies the invariant. -/
theorem Inv_of_Reachable (api : GatewayAPI σ) (r : Router σ) (h : Reachable api r) : Inv r := by
  induction h with
  | new config tokenFunc env => exact Inv_New config tokenFunc env
  | getGateway r now id _ ih => exact Inv_getGateway r now id ih
  | cleanupGateway r id _ ih => exact Inv_CleanupGateway r id ih
  | connect r d _ ih => exact Inv_Connect d r ih
  | disconnect r _ ih => exact Inv_Disconnect r ih
  | publishUplink r now m _ ih => exact Inv_PublishUplink api r now m ih
  | publishStatus r now m _ ih => exact Inv_PublishStatus api r now m ih
  | unsubscribeDownlink r now id _ ih => exact Inv_UnsubscribeDownlink api r now id ih
  | step r id loc o s1 _ hs ih => exact Inv_step api id _ s1 o hs ih
  | world r env _ ih => exact Inv_of_same_cache _ _ ih rfl rfl rfl rfl

/-! ## The cache: `getGateway` -/

/-- C1: for every router state, instant and gateway ID, `getGateway` on a cached ID
returns exactly the stored client, constructs no client and changes nothing but
the `lastActive` of that entry; on an ID that is not cached it constructs one new
client for the ID and stores it under the ID.  In both cases the cache then maps
the ID to the returned client, every other entry is unchanged, and a following
`getGateway` of the same ID returns the same client and constructs none. -/
theorem getGateway_returns_cached_client (r : Router σ) (now : Time) (id : String) :
    (∀ gtw, r.gateways.lookup id = some gtw →
      (getGateway r now id).1 = gtw.client ∧
      (getGateway r now id).2 = { r with gateways := (getGateway r now id).2.gateways } ∧
      constructedCount (getGateway r now id).2 = constructedCount r ∧
      (getGateway r now id).2.gateways.lookup id = some { gtw with lastActive := now }) ∧
    (r.gateways.lookup id = none →
      (getGateway r now id).1 =
        { handle := r.nextHandle, gatewayID := id, tokenFunc := fun e => r.tokenFunc id e } ∧
      (getGateway r now id).2.trace = r.trace ++ [Event.forGateway r.nextHandle id] ∧
      (getGateway r now id).2.nextHandle = r.nextHandle + 1 ∧
      constructedCount (getGateway r now id).2 = constructedCount r + 1) ∧
    (getGateway r now id).2.gateways.lookup id =
      some { client := (getGateway r now id).1, lastActive := now } ∧
    (∀ k, k ≠ id → (getGateway r now id).2.gateways.lookup k = r.gateways.lookup k) ∧
    (∀ later,
      (getGateway (getGateway r now id).2 later id).1 = (getGateway r now id).1 ∧
      (getGateway (getGateway r now id).2 later id).2.trace = (getGateway r now id).2.trace ∧
      (getGateway (getGateway r now id).2 later id).2.nextHandle =
        (getGateway r now id).2.nextHandle) := by
  have key : (getGateway r now id).2.gateways.lookup id =
      some { client := (getGateway r now id).1, lastActive := now } := by
    cases h : r.gateways.lookup id with
    | none => rw [getGateway_miss r now id h]; simp only [AList.lookup_insert]
    | some gtw => rw [getGateway_hit r now id gtw h]; simp only [AList.lookup_insert]
  refine ⟨?_, ?_, key, ?_, ?_⟩
  · intro gtw h
    rw [getGateway_hit r now id gtw h]
    simp only [AList.lookup_insert, constructedCount, and_self]
  · intro h
    rw [getGateway_miss r now id h]
    simp [constructedCount, List.filter_append]
  · intro k hk
    cases h : r.gateways.lookup id with
    | none => rw [getGateway_miss r now id h]; simp only [AList.lookup_insert_ne hk]
    | some gtw => rw [getGateway_hit r now id gtw h]; simp only [AList.lookup_insert_ne hk]
  · intro later
    rw [getGateway_hit _ later id _ key]
    exact ⟨rfl, rfl, rfl⟩

/-- C1, on the router made by `New`: the first `getGateway "dev"` constructs client
0, the second returns it again and constructs nothing. -/
theorem getGateway_returns_cached_client_witness :
    (getGateway freshRouter 5 "dev").1.handle = 0 ∧
    (getGateway (getGateway freshRouter 5 "dev").2 7 "dev").2.trace =
      [Event.forGateway 0 "dev"] := by
  have hmiss : freshRouter.gateways.lookup "dev" = none := rfl
  obtain ⟨_, hnew, _, _, hagain⟩ := getGateway_returns_cached_client freshRouter 5 "dev"
  obtain ⟨hc, ht, _, _⟩ := hnew hmiss
  refine ⟨by rw [hc]; rfl, ?_⟩
  rw [(hagain 7).2.1, ht]
  rfl

/-! ## The cache: `CleanupGateway` -/

/-- C2: `CleanupGateway` is idempotent.  On a gateway ID that is not cached it
leaves the router state, hence the cache and the list of closed clients,
unchanged; and for every ID, calling it twice in succession yields the same
state and the same closed clients as calling it once, the two calls together
closing at most one client. -/
theorem CleanupGateway_idempotent (r : Router σ) (id : String) :
    (id ∉ r.gateways →
      CleanupGateway r id = r ∧ closedClients (CleanupGateway r id) = closedClients r) ∧
    CleanupGateway (CleanupGateway r id) id = CleanupGateway r id ∧
    closedClients (CleanupGateway (CleanupGateway r id) id) =
      closedClients (CleanupGateway r id) ∧
    (closedClients (CleanupGateway (CleanupGateway r id) id)).length ≤
      (closedClients r).length + 1 := by
  have twice : CleanupGateway (CleanupGateway r id) id = CleanupGateway r id := by
    apply CleanupGateway_miss
    cases h : r.gateways.lookup id with
    | none => rw [CleanupGateway_miss r id h]; exact h
    | some gtw => rw [CleanupGateway_hit r id gtw h]; exact AList.lookup_erase id _
  refine ⟨?_, twice, by rw [twice], ?_⟩
  · intro hid
    have h := AList.lookup_eq_none.2 hid
    rw [CleanupGateway_miss r id h]
    exact ⟨rfl, rfl⟩
  · rw [twice]
    cases h : r.gateways.lookup id with
    | none => rw [CleanupGateway_miss r id h]; exact Nat.le_succ _
    | some gtw =>
      rw [closedClients_append_close r _ gtw.client.handle rfl (CleanupGateway r id)
        (by rw [CleanupGateway_hit r id gtw h])]
      simp

/-- C2, on the router made by `New`: releasing the unknown ID "dev" changes nothing
and closes nothing. -/
theorem CleanupGateway_idempotent_witness :
    "dev" ∉ freshRouter.gateways ∧
    CleanupGateway freshRouter "dev" = freshRouter ∧
    closedClients (CleanupGateway freshRouter "dev") = closedClients freshRouter :=
  ⟨AList.not_mem_empty "dev",
   (CleanupGateway_idempotent freshRouter "dev").1 (AList.not_mem_empty "dev")⟩

/-- C3: for every router state in which the gateway ID is cached, `CleanupGateway`
closes exactly the client stored for the ID, removes the entry and changes nothing
else; the entry of every other ID is unchanged and, in a state that satisfies the
invariant, its client is not among the closed ones.  Afterwards the ID is absent,
so a later `getGateway` constructs a client, which in a state that satisfies the
invariant is not the closed one. -/
theorem CleanupGateway_closes_and_removes (r : Router σ) (id : String) (gtw : gatewayConn σ)
    (h : r.gateways.lookup id = some gtw) :
    CleanupGateway r id =
      { r with trace := r.trace ++ [Event.close gtw.client.handle]
               gateways := (CleanupGateway r id).gateways } ∧
    closedClients (CleanupGateway r id) = closedClients r ++ [gtw.client.handle] ∧
    (CleanupGateway r id).gateways.lookup id = none ∧
    id ∉ (CleanupGateway r id).gateways ∧
    (∀ k, k ≠ id → (CleanupGateway r id).gateways.lookup k = r.gateways.lookup k) ∧
    (Inv r → ∀ k g, k ≠ id → r.gateways.lookup k = some g →
      g.client.handle ∉ closedClients (CleanupGateway r id)) ∧
    (∀ now,
      (getGateway (CleanupGateway r id) now id).1 =
        { handle := r.nextHandle, gatewayID := id, tokenFunc := fun e => r.tokenFunc id e } ∧
      (getGateway (CleanupGateway r id) now id).2.trace =
        r.trace ++ [Event.close gtw.client.handle] ++ [Event.forGateway r.nextHandle id] ∧
      (Inv r →
        (getGateway (CleanupGateway r id) now id).1.handle ≠ gtw.client.handle ∧
        (getGateway (CleanupGateway r id) now id).1.handle ∉
          closedClients (CleanupGateway r id))) := by
  have hcl : closedClients (CleanupGateway r id) = closedClients r ++ [gtw.client.handle] :=
    closedClients_append_close r _ gtw.client.handle rfl (CleanupGateway r id)
      (by rw [CleanupGateway_hit r id gtw h])
  have hgone : (CleanupGateway r id).gateways.lookup id = none := by
    rw [CleanupGateway_hit r id gtw h]; exact AList.lookup_erase id _
  refine ⟨?_, hcl, hgone, AList.lookup_eq_none.1 hgone, ?_, ?_, ?_⟩
  · rw [CleanupGateway_hit r id gtw h]
  · intro k hk
    rw [CleanupGateway_hit r id gtw h]
    exact AList.lookup_erase_ne hk
  · intro hinv k g hk hg hmem
    rw [hcl] at hmem
    rcases List.mem_append.1 hmem with hm | hm
    · exact hinv.live k g hg hm
    · exact hk (hinv.distinct k id g gtw hg h (List.mem_singleton.1 hm))
  · intro now
    have hget := getGateway_miss (CleanupGateway r id) now id hgone
    have hnext : (CleanupGateway r id).nextHandle = r.nextHandle := by
      rw [CleanupGateway_hit r id gtw h]
    have htok : (CleanupGateway r id).tokenFunc = r.tokenFunc := by
      rw [CleanupGateway_hit r id gtw h]
    have htr : (CleanupGateway r id).trace = r.trace ++ [Event.close gtw.client.handle] := by
      rw [CleanupGateway_hit r id gtw h]
    refine ⟨?_, ?_, ?_⟩
    · rw [hget, hnext, htok]
    · rw [hget]; simp only [hnext, htr]
    · intro hinv
      rw [hget]
      simp only [hnext]
      have ha := hinv.allocated id gtw h
      refine ⟨by omega, ?_⟩
      intro hmem
      rw [hcl] at hmem
      rcases List.mem_append.1 hmem with hm | hm
      · have := hinv.closedAllocated _ hm; omega
      · have := List.mem_singleton.1 hm; omega

/-- C3, on the router made by `New` after one `getGateway "dev"`: the cleanup
closes client 0, and the next `getGateway "dev"` constructs client 1, which is not
among the closed clients. -/
theorem CleanupGateway_closes_and_removes_witness :
    (getGateway freshRouter 5 "dev").2.gateways.lookup "dev" =
      some { client := (getGateway freshRouter 5 "dev").1, lastActive := 5 } ∧
    closedClients (CleanupGateway (getGateway freshRouter 5 "dev").2 "dev") = [0] ∧
    (getGateway (CleanupGateway (getGateway freshRouter 5 "dev").2 "dev") 9 "dev").1.handle = 1 ∧
    (getGateway (CleanupGateway (getGateway freshRouter 5 "dev").2 "dev") 9 "dev").1.handle ∉
      closedClients (CleanupGateway (getGateway freshRouter 5 "dev").2 "dev") := by
  have hc : (getGateway freshRouter 5 "dev").2.gateways.lookup "dev" =
      some { client := (getGateway freshRouter 5 "dev").1, lastActive := 5 } := by
    rw [getGateway_miss freshRouter 5 "dev" rfl]
    exact AList.lookup_insert _
  have hinv : Inv (getGateway freshRouter 5 "dev").2 :=
    Inv_getGateway freshRouter 5 "dev" (Inv_New _ _ _)
  obtain ⟨_, hclosed, _, _, _, _, hlater⟩ :=
    CleanupGateway_closes_and_removes (getGateway freshRouter 5 "dev").2 "dev" _ hc
  refine ⟨hc, ?_, ?_, ((hlater 9).2.2 hinv).2⟩
  · rw [hclosed, getGateway_miss freshRouter 5 "dev" rfl]; rfl
  · rw [(hlater 9).1, getGateway_miss freshRouter 5 "dev" rfl]; rfl

/-! ## The token callback -/

/-- C4: the token callback of a client is evaluated lazily.  For every router
state, `getGateway` leaves the outside world as it was, so it does not call the
token function; when it populates the cache (and, in a state that satisfies the
invariant, also when it finds the ID cached) every invocation of the callback of
the returned client, in whatever state `e` the world is at that time, is
`r.tokenFunc id e`, and the same holds for the client a later `getGateway` reads
from the cache: a changed token is seen with no `CleanupGateway`. -/
theorem token_callback_is_lazy (r : Router σ) (now : Time) (id : String) :
    (getGateway r now id).2.env = r.env ∧
    (getGateway r now id).2.tokenFunc = r.tokenFunc ∧
    (id ∉ r.gateways ∨ Inv r →
      (getGateway r now id).1.gatewayID = id ∧
      (∀ e, (getGateway r now id).1.tokenFunc e = r.tokenFunc id e) ∧
      (∀ later e,
        (getGateway (getGateway r now id).2 later id).1.tokenFunc e = r.tokenFunc id e ∧
        (getGateway (getGateway r now id).2 later id).2.env = r.env)) := by
  have henv : (getGateway r now id).2.env = r.env := by
    cases h : r.gateways.lookup id with
    | none => rw [getGateway_miss r now id h]
    | some gtw => rw [getGateway_hit r now id gtw h]
  have key : (getGateway r now id).2.gateways.lookup id =
      some { client := (getGateway r now id).1, lastActive := now } := by
    cases h : r.gateways.lookup id with
    | none => rw [getGateway_miss r now id h]; simp only [AList.lookup_insert]
    | some gtw => rw [getGateway_hit r now id gtw h]; simp only [AList.lookup_insert]
  have hcb : (id ∉ r.gateways ∨ Inv r) →
      (getGateway r now id).1.gatewayID = id ∧
      (getGateway r now id).1.tokenFunc = fun e => r.tokenFunc id e := by
    intro hor
    cases h : r.gateways.lookup id with
    | none => rw [getGateway_miss r now id h]; exact ⟨rfl, rfl⟩
    | some gtw =>
      rw [getGateway_hit r now id gtw h]
      rcases hor with hn | hinv
      · exact absurd h (by rw [AList.lookup_eq_none.2 hn]; exact fun hh => by cases hh)
      · exact hinv.bound id gtw h
  refine ⟨henv, ?_, ?_⟩
  · cases h : r.gateways.lookup id with
    | none => rw [getGateway_miss r now id h]
    | some gtw => rw [getGateway_hit r now id gtw h]
  · intro hor
    obtain ⟨hid, htok⟩ := hcb hor
    refine ⟨hid, fun e => by rw [htok], fun later e => ?_⟩
    rw [getGateway_hit _ later id _ key]
    exact ⟨by simp only [htok], henv⟩

/-- C4, on the router made by `New`: `getGateway "dev"` records no call of the token
function; the callback of the client it returns yields "first-dev" before the key
rotation and "rotated-dev" after it. -/
theorem token_callback_is_lazy_witness :
    (getGateway freshRouter 5 "dev").2.env.calls = [] ∧
    ((getGateway freshRouter 5 "dev").1.tokenFunc { rotation := 0, calls := [] }).1 =
      "first-dev" ∧
    ((getGateway freshRouter 5 "dev").1.tokenFunc { rotation := 1, calls := [] }).1 =
      "rotated-dev" := by
  obtain ⟨henv, _, h⟩ := token_callback_is_lazy freshRouter 5 "dev"
  obtain ⟨_, hcb, _⟩ := h (Or.inl (AList.not_mem_empty "dev"))
  refine ⟨by rw [henv]; rfl, ?_, ?_⟩
  · rw [hcb]; decide
  · rw [hcb]; decide

/-! ## Every forwarding method populates the cache -/

theorem Connect_gateways (d : DiscoveryAPI) (r : Router σ) :
    (Connect d r).2.gateways = r.gateways := by
  unfold Connect
  split
  · rfl
  · split
    · rfl
    · split <;> rfl

theorem step_gateways (api : GatewayAPI σ) (id : String) (s s1 : Downlink σ) (o : Obs)
    (h : step api id s o = some s1) :
    s1.router.gateways = s.router.gateways ∨
      ∃ now, s1.router.gateways = (getGateway s.router now id).2.gateways := by
  cases o with
  | subscribeAt now =>
    simp only [step] at h
    split at h
    · refine Or.inr ⟨now, ?_⟩
      simp only [Option.some.injEq] at h
      rw [← h]
      split <;> rfl
    · cases h
  | recvDown down =>
    simp only [step] at h
    split at h
    · simp only [Option.some.injEq] at h; rw [← h]; exact Or.inl rfl
    · cases h
  | downClosed =>
    simp only [step] at h
    split at h
    · simp only [Option.some.injEq] at h; rw [← h]; exact Or.inl rfl
    · cases h
  | recvErr err =>
    simp only [step] at h
    split at h
    · split at h
      · simp only [Option.some.injEq] at h; rw [← h]; exact Or.inl rfl
      · simp only [Option.some.injEq] at h; rw [← h]; exact Or.inl rfl
    · cases h

/-- C10: `PublishUplink`, `PublishStatus` and `UnsubscribeDownlink` go through
`getGateway`, so whatever they return the cache afterwards has an entry for the
gateway ID.  `UnsubscribeDownlink` of an ID with no cached client constructs a
client for it, stores it (the cache has one entry more) and returns what
`Unsubscribe` returns on that new client.  No method removes an entry other than
`CleanupGateway`, which removes only the entry of its argument. -/
theorem forwarding_methods_populate_cache (api : GatewayAPI σ) (d : DiscoveryAPI)
    (r : Router σ) (now : Time) (id : String) (up : UplinkMessage) (st : StatusMessage) :
    up.GatewayID ∈ (PublishUplink api r now up).2.gateways ∧
    st.GatewayID ∈ (PublishStatus api r now st).2.gateways ∧
    id ∈ (UnsubscribeDownlink api r now id).2.gateways ∧
    (id ∉ r.gateways →
      (UnsubscribeDownlink api r now id).2.gateways.lookup id =
        some { client := { handle := r.nextHandle, gatewayID := id,
                           tokenFunc := fun e => r.tokenFunc id e }
               lastActive := now } ∧
      (UnsubscribeDownlink api r now id).2.gateways.entries.length =
        r.gateways.entries.length + 1 ∧
      (UnsubscribeDownlink api r now id).2.trace =
        r.trace ++ [Event.forGateway r.nextHandle id] ++ [Event.unsubscribe r.nextHandle] ∧
      (UnsubscribeDownlink api r now id).1 =
        (api.Unsubscribe { handle := r.nextHandle, gatewayID := id,
                           tokenFunc := fun e => r.tokenFunc id e } r.env).1) ∧
    (∀ k, k ∈ r.gateways →
      k ∈ (getGateway r now id).2.gateways ∧
      k ∈ (PublishUplink api r now up).2.gateways ∧
      k ∈ (PublishStatus api r now st).2.gateways ∧
      k ∈ (UnsubscribeDownlink api r now id).2.gateways ∧
      k ∈ (Connect d r).2.gateways ∧
      k ∈ (Disconnect r).2.gateways ∧
      (∀ loc o s1, step api id { loc := loc, router := r } o = some s1 →
        k ∈ s1.router.gateways) ∧
      (k ∉ (CleanupGateway r id).gateways → k = id)) := by
  refine ⟨?_, ?_, ?_, ?_, ?_⟩
  · rw [PublishUplink_eq]; exact getGateway_mem_self r now up.GatewayID
  · rw [PublishStatus_eq]; exact getGateway_mem_self r now st.GatewayID
  · rw [UnsubscribeDownlink_eq]; exact getGateway_mem_self r now id
  · intro hid
    have h := AList.lookup_eq_none.2 hid
    rw [UnsubscribeDownlink_eq, getGateway_miss r now id h]
    refine ⟨AList.lookup_insert _, ?_, rfl, rfl⟩
    simp only [AList.insert_entries_of_neg hid, List.length_cons]
  · intro k hk
    refine ⟨getGateway_mem_mono r now id k hk, ?_, ?_, ?_, ?_, hk, ?_, ?_⟩
    · rw [PublishUplink_eq]; exact getGateway_mem_mono r now up.GatewayID k hk
    · rw [PublishStatus_eq]; exact getGateway_mem_mono r now st.GatewayID k hk
    · rw [UnsubscribeDownlink_eq]; exact getGateway_mem_mono r now id k hk
    · rw [Connect_gateways]; exact hk
    · intro loc o s1 hs
      rcases step_gateways api id _ s1 o hs with hg | ⟨t, hg⟩
      · rw [hg]; exact hk
      · rw [hg]; exact getGateway_mem_mono r t id k hk
    · intro hgone
      by_contra hne
      apply hgone
      cases h : r.gateways.lookup id with
      | none => rw [CleanupGateway_miss r id h]; exact hk
      | some gtw =>
        rw [CleanupGateway_hit r id gtw h]
        exact AList.mem_erase.2 ⟨hne, hk⟩

/-- C10, on the router made by `New`: `UnsubscribeDownlink "dev"`, with nothing
cached, leaves a cache of one entry. -/
theorem forwarding_methods_populate_cache_witness :
    "dev" ∉ freshRouter.gateways ∧
    (UnsubscribeDownlink
      { SendUplink := fun _ _ e => (none, e), SendGatewayStatus := fun _ _ e => (none, e),
        Subscribe := fun _ e => ({ downChan := some 0, errChan := some 1, err := none }, e),
        Unsubscribe := fun _ e => (some "not subscribed", e) }
      freshRouter 5 "dev").2.gateways.entries.length = 1 :=
  ⟨AList.not_mem_empty "dev",
   ((forwarding_methods_populate_cache
      { SendUplink := fun _ _ e => (none, e), SendGatewayStatus := fun _ _ e => (none, e),
        Subscribe := fun _ e => ({ downChan := some 0, errChan := some 1, err := none }, e),
        Unsubscribe := fun _ e => (some "not subscribed", e) }
      { NewClient := fun _ => .ok 0, Get := fun _ _ _ => .ok 0, NewRouterClient := fun _ => .ok 0 }
      freshRouter 5 "dev" { GatewayID := "dev", Message := 0 }
      { GatewayID := "dev", Message := 0 }).2.2.2.1 (AList.not_mem_empty "dev")).2.1⟩

/-! ## The reconnect loop of `SubscribeDownlink` -/

theorem step_subscribeAt (api : GatewayAPI σ) (id : String) (r : Router σ) (now : Time) :
    step api id { loc := Loc.newConnection, router := r } (Obs.subscribeAt now) =
      some
        { loc := Loc.loop (api.Subscribe (getGateway r now id).1 (getGateway r now id).2.env).1.downChan
            (api.Subscribe (getGateway r now id).1 (getGateway r now id).2.env).1.errChan
          router :=
            if (api.Subscribe (getGateway r now id).1 (getGateway r now id).2.env).1.err.isSome then
              { (getGateway r now id).2 with
                env := (api.Subscribe (getGateway r now id).1 (getGateway r now id).2.env).2
                trace := (getGateway r now id).2.trace ++
                  [Event.subscribe (getGateway r now id).1.handle] ++ [Event.sleep Second] }
            else
              { (getGateway r now id).2 with
                env := (api.Subscribe (getGateway r now id).1 (getGateway r now id).2.env).2
                trace := (getGateway r now id).2.trace ++
                  [Event.subscribe (getGateway r now id).1.handle] } } :=
  rfl

theorem getGateway_sent (r : Router σ) (now : Time) (id : String) :
    sent (getGateway r now id).2.trace = sent r.trace := by
  cases h : r.gateways.lookup id with
  | none => rw [getGateway_miss r now id h]; simp [sent, List.filterMap_append]
  | some gtw => rw [getGateway_hit r now id gtw h]

/-- What one step of the goroutine sends on the returned channel. -/
theorem step_sent (api : GatewayAPI σ) (id : String) (s s1 : Downlink σ) (o : Obs)
    (h : step api id s o = some s1) :
    sent s1.router.trace =
      sent s.router.trace ++ (received [o]).map fun m => { GatewayID := id, Message := m } := by
  cases o with
  | subscribeAt now =>
    simp only [step] at h
    split at h
    · simp only [Option.some.injEq] at h
      rw [← h]
      have hg := getGateway_sent s.router now id
      split
      · simp [sent, received, List.filterMap_append] at hg ⊢; exact hg
      · simp [sent, received, List.filterMap_append] at hg ⊢; exact hg
    · cases h
  | recvDown down =>
    simp only [step] at h
    split at h
    · simp only [Option.some.injEq] at h; rw [← h]
      simp [sent, received, Downlink.emit, List.filterMap_append]
    · cases h
  | downClosed =>
    simp only [step] at h
    split at h
    · simp only [Option.some.injEq] at h; rw [← h]
      simp [sent, received, Downlink.emit, List.filterMap_append]
    · cases h
  | recvErr err =>
    simp only [step] at h
    split at h
    · split at h
      · simp only [Option.some.injEq] at h; rw [← h]
        simp [sent, received, Downlink.emit, List.filterMap_append]
      · simp only [Option.some.injEq] at h; rw [← h]
        simp [sent, received]
    · cases h

theorem run_sent (api : GatewayAPI σ) (id : String) (os : List Obs) :
    ∀ s s1 : Downlink σ, run api id s os = some s1 →
      sent s1.router.trace =
        sent s.router.trace ++ (received os).map fun m => { GatewayID := id, Message := m } := by
  induction os with
  | nil =>
    intro s s1 h
    simp only [run, Option.some.injEq] at h
    rw [← h]; simp [received]
  | cons o os ih =>
    intro s s1 h
    simp only [run] at h
    cases hs : step api id s o with
    | none => rw [hs] at h; cases h
    | some s2 =>
      rw [hs] at h
      rw [ih s2 s1 h, step_sent api id s s2 o hs]
      have : received (o :: os) = received [o] ++ received os := by
        simp [received, List.filterMap_cons]
        cases o <;> simp
      rw [this, List.map_append, List.append_assoc]

/-- A goroutine that has returned makes no further observation. -/
theorem step_returned (api : GatewayAPI σ) (id : String) (s : Downlink σ)
    (h : s.loc = Loc.returned) (o : Obs) : step api id s o = none := by
  cases o <;> simp [step, h]

/-- A goroutine in the `select` on two `nil` channels makes no further
observation. -/
theorem step_nil_channels (api : GatewayAPI σ) (id : String) (s : Downlink σ)
    (h : s.loc = Loc.loop none none) (o : Obs) : step api id s o = none := by
  cases o <;> simp [step, h]

theorem run_of_stuck (api : GatewayAPI σ) (id : String) (s s1 : Downlink σ) (os : List Obs)
    (hstuck : ∀ o, step api id s o = none) (h : run api id s os = some s1) :
    os = [] ∧ s1 = s := by
  cases os with
  | nil => simp only [run, Option.some.injEq] at h; exact ⟨rfl, h.symm⟩
  | cons o os => simp only [run, hstuck o] at h; cases h

theorem step_downClosed (api : GatewayAPI σ) (id : String) (s s1 : Downlink σ)
    (h : step api id s Obs.downClosed = some s1) :
    s1 = s.emit Loc.returned Event.closeDownlink := by
  simp only [step] at h
  split at h
  · simp only [Option.some.injEq] at h; exact h.symm
  · cases h

theorem run_downClosed (api : GatewayAPI σ) (id : String) (os : List Obs) :
    ∀ s s1 : Downlink σ, run api id s os = some s1 → Obs.downClosed ∈ os →
      ∃ pre s0, os = pre ++ [Obs.downClosed] ∧ Obs.downClosed ∉ pre ∧
        run api id s pre = some s0 ∧ s1 = s0.emit Loc.returned Event.closeDownlink := by
  induction os with
  | nil => intro s s1 _ hm; cases hm
  | cons o os ih =>
    intro s s1 h hm
    simp only [run] at h
    cases hs : step api id s o with
    | none => rw [hs] at h; cases h
    | some s2 =>
      rw [hs] at h
      by_cases ho : o = Obs.downClosed
      · subst ho
        have h2 := step_downClosed api id s s2 hs
        have hstuck : ∀ o, step api id s2 o = none :=
          fun o => step_returned api id s2 (by rw [h2]; rfl) o
        obtain ⟨hos, hs1⟩ := run_of_stuck api id s2 s1 os hstuck h
        exact ⟨[], s, by rw [hos]; rfl, by simp, rfl, by rw [hs1, h2]⟩
      · have hm2 : Obs.downClosed ∈ os := by
          rcases List.mem_cons.1 hm with hh | hh
          · exact absurd hh.symm ho
          · exact hh
        obtain ⟨pre, s0, hpre, hnot, hrun, hfin⟩ := ih s2 s1 h hm2
        refine ⟨o :: pre, s0, by rw [hpre]; rfl, ?_, ?_, hfin⟩
        · intro hin
          rcases List.mem_cons.1 hin with hh | hh
          · exact ho hh.symm
          · exact hnot hh
        · simp only [run, hs]; exact hrun

/-- C8: in every run of the goroutine of `SubscribeDownlink(id)`, the messages sent
on the returned channel are exactly the messages received from the stream, in the
order received, each wrapped as a `DownlinkMessage` whose `GatewayID` is `id`.
When the run observes the message channel of the stream closed, that is its last
observation: the goroutine closes the returned channel as its last call, without
calling `Subscribe` again, and returns.  Wherever the goroutine receives from a
non-nil message channel, observing it closed is a step that does so. -/
theorem downlink_closed_when_stream_ends (api : GatewayAPI σ) (id : String)
    (s s1 : Downlink σ) (os : List Obs) (h : run api id s os = some s1) :
    sent s1.router.trace =
      sent s.router.trace ++ (received os).map (fun m => { GatewayID := id, Message := m }) ∧
    (Obs.downClosed ∈ os →
      s1.loc = Loc.returned ∧
      (∀ o, step api id s1 o = none) ∧
      ∃ pre s0, os = pre ++ [Obs.downClosed] ∧ Obs.downClosed ∉ pre ∧
        run api id s pre = some s0 ∧
        s1.router.trace = s0.router.trace ++ [Event.closeDownlink] ∧
        subscribes s1.router.trace = subscribes s0.router.trace) ∧
    (∀ downChan errChan, s1.loc = Loc.loop (some downChan) errChan →
      ∃ s2, step api id s1 Obs.downClosed = some s2 ∧ s2.loc = Loc.returned ∧
        s2.router.trace = s1.router.trace ++ [Event.closeDownlink]) := by
  refine ⟨run_sent api id os s s1 h, ?_, ?_⟩
  · intro hm
    obtain ⟨pre, s0, hpre, hnot, hrun, hfin⟩ := run_downClosed api id os s s1 h hm
    have hloc : s1.loc = Loc.returned := by rw [hfin]; rfl
    refine ⟨hloc, step_returned api id s1 hloc, pre, s0, hpre, hnot, hrun, ?_, ?_⟩
    · rw [hfin]; rfl
    · rw [hfin]; simp [subscribes, Downlink.emit, List.filterMap_append]
  · intro downChan errChan hloc
    refine ⟨s1.emit Loc.returned Event.closeDownlink, ?_, rfl, rfl⟩
    simp only [step, hloc]

/-- C8, on the router made by `New`: the run that subscribes, receives 7 and 8 and
then sees the stream closed sends 7 and 8 for "dev", closes the channel and
returns. -/
theorem downlink_closed_when_stream_ends_witness :
    ∃ s1,
      run steadyAPI "dev" (SubscribeDownlink freshRouter)
        [Obs.subscribeAt 0, Obs.recvDown 7, Obs.recvDown 8, Obs.downClosed] = some s1 ∧
      sent s1.router.trace =
        [{ GatewayID := "dev", Message := 7 }, { GatewayID := "dev", Message := 8 }] ∧
      s1.loc = Loc.returned := by
  have hrun : ∃ s1, run steadyAPI "dev" (SubscribeDownlink freshRouter)
      [Obs.subscribeAt 0, Obs.recvDown 7, Obs.recvDown 8, Obs.downClosed] = some s1 :=
    ⟨_, rfl⟩
  obtain ⟨s1, h1⟩ := hrun
  obtain ⟨hsent, hclosed, _⟩ :=
    downlink_closed_when_stream_ends steadyAPI "dev" (SubscribeDownlink freshRouter) s1 _ h1
  refine ⟨s1, h1, ?_, (hclosed (by decide)).1⟩
  rw [hsent]
  rfl

/-- C9: when `Subscribe` on the cached client returns an error, the goroutine
sleeps one second and then stands in the `select` on the channels that this
`Subscribe` returned; it does not run the head of the outer loop again.  If both
channels are `nil` it makes no further observation: its state, and with it the
trace, never changes again, so it neither calls `Subscribe`, nor sends a message,
nor closes the returned channel. -/
theorem subscribe_error_falls_into_receive_loop (api : GatewayAPI σ) (id : String)
    (r : Router σ) (now : Time) (err : Error)
    (herr : (api.Subscribe (getGateway r now id).1 (getGateway r now id).2.env).1.err =
      some err) :
    ∃ s1, step api id (SubscribeDownlink r) (Obs.subscribeAt now) = some s1 ∧
      s1.loc =
        Loc.loop
          (api.Subscribe (getGateway r now id).1 (getGateway r now id).2.env).1.downChan
          (api.Subscribe (getGateway r now id).1 (getGateway r now id).2.env).1.errChan ∧
      s1.router.trace =
        (getGateway r now id).2.trace ++ [Event.subscribe (getGateway r now id).1.handle] ++
          [Event.sleep Second] ∧
      (∀ t, step api id s1 (Obs.subscribeAt t) = none) ∧
      ((api.Subscribe (getGateway r now id).1 (getGateway r now id).2.env).1.downChan = none →
        (api.Subscribe (getGateway r now id).1 (getGateway r now id).2.env).1.errChan = none →
        (∀ o, step api id s1 o = none) ∧
        (∀ os s2, run api id s1 os = some s2 → os = [] ∧ s2 = s1) ∧
        sent s1.router.trace = sent r.trace ∧
        subscribes s1.router.trace =
          subscribes r.trace ++ [(getGateway r now id).1.handle]) := by
  have hs := step_subscribeAt api id r now
  simp only [herr, Option.isSome_some, if_true] at hs
  refine ⟨_, hs, rfl, rfl, fun t => rfl, ?_⟩
  intro hd he
  simp only [hd, he]
  refine ⟨fun o => step_nil_channels api id _ rfl o,
    fun os s2 h => run_of_stuck api id _ s2 os (fun o => step_nil_channels api id _ rfl o) h,
    ?_, ?_⟩
  · have hg := getGateway_sent r now id
    simp [sent, List.filterMap_append] at hg ⊢
    exact hg
  · cases h : r.gateways.lookup id with
    | none => rw [getGateway_miss r now id h]; simp [subscribes, List.filterMap_append]
    | some gtw => rw [getGateway_hit r now id gtw h]; simp [subscribes, List.filterMap_append]

/-- C9, on the router made by `New` with an upstream whose `Subscribe` fails with
`nil` channels: after the first step the goroutine can make no observation. -/
theorem subscribe_error_falls_into_receive_loop_witness :
    (failingAPI.Subscribe (getGateway freshRouter 0 "dev").1
      (getGateway freshRouter 0 "dev").2.env).1.err = some "unavailable" ∧
    ∃ s1, step failingAPI "dev" (SubscribeDownlink freshRouter) (Obs.subscribeAt 0) = some s1 ∧
      s1.router.trace = [Event.forGateway 0 "dev", Event.subscribe 0, Event.sleep Second] ∧
      ∀ o, step failingAPI "dev" s1 o = none := by
  refine ⟨rfl, ?_⟩
  obtain ⟨s1, hstep, _, htrace, _, hnil⟩ :=
    subscribe_error_falls_into_receive_loop failingAPI "dev" freshRouter 0 "unavailable" rfl
  refine ⟨s1, hstep, ?_, (hnil rfl rfl).1⟩
  rw [htrace]
  rfl

/-- C7: the run of the goroutine, on the router made by `New` with an upstream whose
`Subscribe` succeeds, that subscribes, receives the error "stream broken" from the
error channel and runs the head of the outer loop again: `Subscribe` is called a
second time right after the error is logged, and the trace has no sleep at all. -/
theorem resubscribe_after_stream_error_without_backoff :
    (run steadyAPI "dev" (SubscribeDownlink freshRouter)
      [Obs.subscribeAt 0, Obs.recvErr (some "stream broken"), Obs.subscribeAt 0]).map
        (fun s => (s.loc, s.router.trace, sleeps s.router.trace)) =
      some (Loc.loop (some 0) (some 1),
        [Event.forGateway 0 "dev", Event.subscribe 0, Event.logError "stream broken",
         Event.subscribe 0],
        []) := by
  rfl

end ttn

/-! ## The Exchange: connect and disconnect -/

namespace exchange

theorem Registry.Contains_Add (g : Registry) (id : String) : (g.Add id).Contains id = true := by
  unfold Registry.Add
  split
  · assumption
  · simp [Registry.Contains]

theorem Registry.Contains_Remove (g : Registry) (id : String) :
    (g.Remove id).Contains id = false := by
  simp [Registry.Remove, Registry.Contains]

theorem handleConnect_new (x : Exchange) (id k : String)
    (hnew : x.gateways.Contains id = false) :
    x.handleConnect { GatewayID := id, Key := k } =
      { x with auth := x.auth.SetKey id k
               gateways := x.gateways.Add id
               pipelines := id :: x.pipelines } := by
  simp [Exchange.handleConnect, hnew]

theorem ValidateKey_SetKey (a : AuthStore) (id k key : String) :
    (a.SetKey id k).ValidateKey id key = (k == "" || k == key) := by
  simp [AuthStore.SetKey, AuthStore.ValidateKey, AList.lookup_insert]

/-- C5, as amended: for every gateway ID `id`, keys `k ≠ k2` with `k` not empty, and
every state of the Exchange in which `id` is not already connected when the Connect
is handled: after Connect(id, k) and then Disconnect(id, k2) the registry still
contains `id`, and the disconnect has changed nothing in the state of the
Exchange. -/
theorem unauthorized_disconnect_is_ignored (x : Exchange) (id k k2 : String)
    (hne : k ≠ k2) (hk : k ≠ "") (hnew : x.gateways.Contains id = false) :
    ((x.handleConnect { GatewayID := id, Key := k }).handleDisconnect
      { GatewayID := id, Key := k2 }).gateways.Contains id = true ∧
    (x.handleConnect { GatewayID := id, Key := k }).handleDisconnect
      { GatewayID := id, Key := k2 } = x.handleConnect { GatewayID := id, Key := k } := by
  have hc : (x.handleConnect { GatewayID := id, Key := k }).gateways.Contains id = true := by
    rw [handleConnect_new x id k hnew]; exact Registry.Contains_Add _ _
  have hv : (x.handleConnect { GatewayID := id, Key := k }).auth.ValidateKey id k2 = false := by
    rw [handleConnect_new x id k hnew]
    simp only [ValidateKey_SetKey]
    simp [hne, hk]
  have hd : (x.handleConnect { GatewayID := id, Key := k }).handleDisconnect
      { GatewayID := id, Key := k2 } = x.handleConnect { GatewayID := id, Key := k } := by
    simp [Exchange.handleDisconnect, hc, hv]
  exact ⟨by rw [hd]; exact hc, hd⟩

/-- C5, on the Exchange of the test: Connect("dev", "key") and then
Disconnect("dev", "other-key") leave "dev" connected. -/
theorem unauthorized_disconnect_is_ignored_witness :
    "key" ≠ "other-key" ∧ "key" ≠ "" ∧ Exchange.New.gateways.Contains "dev" = false ∧
    ((Exchange.New.handleConnect { GatewayID := "dev", Key := "key" }).handleDisconnect
      { GatewayID := "dev", Key := "other-key" }).gateways.Contains "dev" = true :=
  ⟨by decide, by decide, rfl,
   (unauthorized_disconnect_is_ignored Exchange.New "dev" "key" "other-key"
      (by decide) (by decide) rfl).1⟩

/-- C5, as stated, fails on an Exchange in which the gateway is already connected:
after Connect("dev", "other-key") the Connect("dev", "key") is the idempotent
connect and registers nothing, so "other-key" stays the registered key and
Disconnect("dev", "other-key") is authorized: the registry no longer contains
"dev", although "key" differs from "other-key" and is not empty. -/
theorem unauthorized_disconnect_after_idempotent_connect :
    "key" ≠ "other-key" ∧ "key" ≠ "" ∧
    (((Exchange.New.handleConnect { GatewayID := "dev", Key := "other-key" }).handleConnect
      { GatewayID := "dev", Key := "key" }).handleDisconnect
      { GatewayID := "dev", Key := "other-key" }).gateways.Contains "dev" = false ∧
    ¬ ∀ (x : Exchange) (id k k2 : String), k ≠ k2 → k ≠ "" →
      ((x.handleConnect { GatewayID := id, Key := k }).handleDisconnect
        { GatewayID := id, Key := k2 }).gateways.Contains id = true := by
  have hfalse :
      (((Exchange.New.handleConnect { GatewayID := "dev", Key := "other-key" }).handleConnect
        { GatewayID := "dev", Key := "key" }).handleDisconnect
        { GatewayID := "dev", Key := "other-key" }).gateways.Contains "dev" = false := by
    decide
  refine ⟨by decide, by decide, hfalse, ?_⟩
  intro hall
  have h := hall (Exchange.New.handleConnect { GatewayID := "dev", Key := "other-key" })
    "dev" "key" "other-key" (by decide) (by decide)
  rw [hfalse] at h
  cases h

/-- C6: for every gateway ID `id`, key `k` and state of the Exchange in which `id` is
not yet connected: after Connect(id, k) the registry contains `id`, and after the
following Disconnect(id, k) with the same key it no longer contains `id`. -/
theorem authorized_connect_then_disconnect (x : Exchange) (id k : String)
    (hnew : x.gateways.Contains id = false) :
    (x.handleConnect { GatewayID := id, Key := k }).gateways.Contains id = true ∧
    ((x.handleConnect { GatewayID := id, Key := k }).handleDisconnect
      { GatewayID := id, Key := k }).gateways.Contains id = false := by
  have hc : (x.handleConnect { GatewayID := id, Key := k }).gateways.Contains id = true := by
    rw [handleConnect_new x id k hnew]; exact Registry.Contains_Add _ _
  have hv : (x.handleConnect { GatewayID := id, Key := k }).auth.ValidateKey id k = true := by
    rw [handleConnect_new x id k hnew]
    simp only [ValidateKey_SetKey]
    simp
  refine ⟨hc, ?_⟩
  simp only [Exchange.handleDisconnect, hc, hv, if_true]
  exact Registry.Contains_Remove _ _

/-- C6, on the Exchange of the test: Connect("dev", "key") connects "dev", and
Disconnect("dev", "key") disconnects it. -/
theorem authorized_connect_then_disconnect_witness :
    Exchange.New.gateways.Contains "dev" = false ∧
    (Exchange.New.handleConnect { GatewayID := "dev", Key := "key" }).gateways.Contains "dev" =
      true ∧
    ((Exchange.New.handleConnect { GatewayID := "dev", Key := "key" }).handleDisconnect
      { GatewayID := "dev", Key := "key" }).gateways.Contains "dev" = false :=
  ⟨rfl, authorized_connect_then_disconnect Exchange.New "dev" "key" rfl⟩

end exchange
